import Mathlib

/-!
# Smart traffic management: signal-decision engine

A shallow embedding of `smart_traffic_minor_project.cpp` (classes `Vehicle`,
`TrafficLight`, `Road`, `SignalController`, `Intersection`) together with
theorems about road selection and the per-cycle state update.

Modelling conventions.

* A C++ `int` is a Lean `Int`; all quantities are taken inside the range of
  `int`, where C++ arithmetic agrees with integer arithmetic (signed overflow
  is undefined behaviour in C++ and is not given a meaning here).
* The `double` score of `decideGreen` is computed exactly, in `ℚ`; binary
  rounding of `0.4` and `0.3` is not modelled.
* A `Road*` into `vector<Road>` is the index of the road in the list.
* `simulate` returns the new state together with the data handed to
  `display` (`none` when the cycle returns early).
-/

set_option autoImplicit false

namespace SmartTraffic

/-! ## Enumerations -/

inductive SignalState where
  | RED
  | YELLOW
  | GREEN
  deriving DecidableEq, Repr

inductive VehicleType where
  | NORMAL
  | EMERGENCY
  deriving DecidableEq, Repr

/-! ## Vehicle -/

structure Vehicle where
  id : Int
  type : VehicleType
  deriving DecidableEq, Repr

def Vehicle.getPriority (v : Vehicle) : Int :=
  if v.type = VehicleType.EMERGENCY then 100 else 10

def Vehicle.isEmergency (v : Vehicle) : Bool :=
  decide (v.type = VehicleType.EMERGENCY)

/-! ## Traffic light -/

structure TrafficLight where
  state : SignalState
  deriving DecidableEq, Repr

/-- The constructor `TrafficLight()`: a light starts RED. -/
def TrafficLight.init : TrafficLight := ⟨SignalState.RED⟩

def TrafficLight.setState (_t : TrafficLight) (s : SignalState) : TrafficLight := ⟨s⟩

def TrafficLight.getState (t : TrafficLight) : String :=
  if t.state = SignalState.RED then "RED"
  else if t.state = SignalState.GREEN then "GREEN"
  else "YELLOW"

/-! ## Road -/

structure Road where
  name : String
  vehicles : List Vehicle
  accident : Bool
  pedestrian : Bool
  signal : TrafficLight
  waitTime : Int
  deriving DecidableEq, Repr

/-- The constructor `Road(name)`. -/
def Road.init (name : String) : Road :=
  { name := name, vehicles := [], accident := false, pedestrian := false,
    signal := TrafficLight.init, waitTime := 0 }

def Road.addVehicle (r : Road) (v : Vehicle) : Road :=
  { r with vehicles := r.vehicles ++ [v] }

def Road.density (r : Road) : Int := (r.vehicles.length : Int)

def Road.hasEmergency (r : Road) : Bool := r.vehicles.any Vehicle.isEmergency

def Road.setAccident (r : Road) (status : Bool) : Road := { r with accident := status }

def Road.hasAccident (r : Road) : Bool := r.accident

def Road.requestPedestrian (r : Road) : Road := { r with pedestrian := true }

def Road.hasPedestrian (r : Road) : Bool := r.pedestrian

def Road.incrementWait (r : Road) : Road := { r with waitTime := r.waitTime + 1 }

def Road.getWaitTime (r : Road) : Int := r.waitTime

def Road.resetCycle (r : Road) : Road :=
  { r with vehicles := [], pedestrian := false, waitTime := 0 }

def Road.getName (r : Road) : String := r.name

/-- The call `r.getSignal().setState(s)`. -/
def Road.setSignal (r : Road) (s : SignalState) : Road :=
  { r with signal := r.signal.setState s }

/-! ## Signal controller -/

/-- The score computed in the body of the loop of `decideGreen`. -/
def score (r : Road) : ℚ :=
  (r.density : ℚ) * 0.4 +
  (r.getWaitTime : ℚ) * 0.3 +
  (if r.hasEmergency then 50 else 0) +
  (if r.hasPedestrian then 5 else 0)

/-- The loop of `decideGreen`: `i` is the index of the head of the remaining
roads, `bestScore` and `selected` are the two local variables. -/
def decideGreenLoop : List Road → Nat → ℚ → Option Nat → Option Nat
  | [], _, _, selected => selected
  | r :: rs, i, bestScore, selected =>
    if r.hasAccident then decideGreenLoop rs (i + 1) bestScore selected
    else if score r > bestScore then decideGreenLoop rs (i + 1) (score r) (some i)
    else decideGreenLoop rs (i + 1) bestScore selected

/-- `SignalController::decideGreen`: the index of the selected road, or `none`
for `nullptr`. -/
def decideGreen (roads : List Road) : Option Nat :=
  decideGreenLoop roads 0 (-1) none

def calculateGreenTime (r : Road) : Int :=
  20 + r.density * 2 + (if r.hasEmergency then 30 else 0)

/-! ## Intersection -/

/-- Apply `f` to the road at index `i` (a write through a pointer or reference
to that element); the list is unchanged when `i` is out of range. -/
def modifyAt (f : Road → Road) : Nat → List Road → List Road
  | _, [] => []
  | 0, r :: rs => f r :: rs
  | i + 1, r :: rs => r :: modifyAt f i rs

structure Intersection where
  id : Int
  roads : List Road
  deriving DecidableEq, Repr

/-- The constructor `Intersection(id)`. -/
def Intersection.init (id : Int) : Intersection :=
  { id := id,
    roads := [Road.init "North", Road.init "South", Road.init "East", Road.init "West"] }

def Intersection.getRoads (x : Intersection) : List Road := x.roads

def Intersection.hasEmergency (x : Intersection) : Bool := x.roads.any Road.hasEmergency

/-- The data `display` prints: the green road, its time, and one row
(name, density, signal) per road. -/
structure Display where
  id : Int
  greenRoad : String
  time : Int
  rows : List (String × Int × String)
  deriving DecidableEq, Repr

def Intersection.display (x : Intersection) (greenRoad : String) (time : Int) : Display :=
  { id := x.id, greenRoad := greenRoad, time := time,
    rows := x.roads.map (fun r => (r.getName, r.density, r.signal.getState)) }

/-- `Intersection::simulate`: the state after the cycle and what was displayed.
`green` always indexes a road (`decideGreen_lt_length`), so the `none` branch of
the lookup `x3.roads[green]?`, which stands for dereferencing `green`, is never
taken. -/
def Intersection.simulate (x : Intersection) : Intersection × Option Display :=
  let x1 : Intersection := { x with roads := x.roads.map Road.incrementWait }
  match decideGreen x1.roads with
  | none => (x1, none)
  | some green =>
    let x2 : Intersection := { x1 with roads := x1.roads.map (fun r => r.setSignal SignalState.RED) }
    let x3 : Intersection :=
      { x2 with roads := modifyAt (fun r => r.setSignal SignalState.GREEN) green x2.roads }
    match x3.roads[green]? with
    | none => (x3, none)
    | some g =>
      let time := calculateGreenTime g
      let out := x3.display g.getName time
      ({ x3 with roads := modifyAt Road.resetCycle green x3.roads }, some out)

/-! ## Predicates, operations and sample states used by the theorems -/

/-- The road at index `k` wins the selection among `roads`: it has no accident,
its score exceeds the initial `bestScore = -1`, no road without accident scores
higher and none before it scores as high. -/
def Wins (roads : List Road) (k : Nat) : Prop :=
  ∃ w, roads[k]? = some w ∧ w.accident = false ∧ -1 < score w ∧
    (∀ r ∈ roads, r.accident = false → score r ≤ score w) ∧
    (∀ j r, j < k → roads[j]? = some r → r.accident = false → score r < score w)

/-- Two roads: a blocked one carrying an emergency vehicle and a pedestrian
request, and an open, empty one. -/
def blockedThenOpen : List Road :=
  [ { name := "North", vehicles := [⟨1, VehicleType.EMERGENCY⟩], accident := true,
      pedestrian := true, signal := TrafficLight.init, waitTime := 7 },
    { name := "South", vehicles := [], accident := false,
      pedestrian := false, signal := TrafficLight.init, waitTime := 0 } ]

/-- What a cycle does to the road at index `j` when the road at index `g` wins. -/
def cycleRoad (g j : Nat) (r : Road) : Road :=
  if j = g then
    ((r.incrementWait.setSignal SignalState.RED).setSignal SignalState.GREEN).resetCycle
  else r.incrementWait.setSignal SignalState.RED

/-- A four-road sample state with traffic, one blocked road and arbitrary
signals left over from before. -/
def sampleIntersection : Intersection :=
  { id := 1,
    roads :=
      [ { name := "North", vehicles := [⟨4, VehicleType.NORMAL⟩], accident := false,
          pedestrian := true, signal := ⟨SignalState.GREEN⟩, waitTime := 0 },
        { name := "South", vehicles := [⟨1, VehicleType.EMERGENCY⟩], accident := false,
          pedestrian := false, signal := ⟨SignalState.YELLOW⟩, waitTime := 2 },
        { name := "East", vehicles := [], accident := true,
          pedestrian := true, signal := ⟨SignalState.GREEN⟩, waitTime := 9 },
        { name := "West", vehicles := [⟨2, VehicleType.NORMAL⟩, ⟨3, VehicleType.NORMAL⟩],
          accident := false, pedestrian := false, signal := ⟨SignalState.RED⟩, waitTime := 1 } ] }

/-- Four blocked roads with mixed signals, traffic and pedestrian requests. -/
def allBlocked : Intersection :=
  { id := 2,
    roads :=
      [ { name := "North", vehicles := [⟨1, VehicleType.EMERGENCY⟩], accident := true,
          pedestrian := true, signal := ⟨SignalState.GREEN⟩, waitTime := 3 },
        { name := "South", vehicles := [], accident := true,
          pedestrian := false, signal := ⟨SignalState.RED⟩, waitTime := 0 },
        { name := "East", vehicles := [⟨2, VehicleType.NORMAL⟩], accident := true,
          pedestrian := false, signal := ⟨SignalState.RED⟩, waitTime := 5 },
        { name := "West", vehicles := [], accident := true,
          pedestrian := true, signal := ⟨SignalState.RED⟩, waitTime := 1 } ] }

/-- The mutation entry points of an intersection: `getRoads()[i].addVehicle(v)`,
`getRoads()[i].requestPedestrian()`, `getRoads()[i].setAccident(status)` on one of
the four roads, and `simulate()`. -/
inductive Op where
  | addVehicle (i : Fin 4) (v : Vehicle)
  | requestPedestrian (i : Fin 4)
  | setAccident (i : Fin 4) (status : Bool)
  | simulate
  deriving DecidableEq, Repr

def Intersection.step (x : Intersection) : Op → Intersection
  | Op.addVehicle i v => { x with roads := modifyAt (fun r => r.addVehicle v) i.val x.roads }
  | Op.requestPedestrian i => { x with roads := modifyAt Road.requestPedestrian i.val x.roads }
  | Op.setAccident i status =>
    { x with roads := modifyAt (fun r => r.setAccident status) i.val x.roads }
  | Op.simulate => (x.simulate).1

def Intersection.run (x : Intersection) (ops : List Op) : Intersection :=
  ops.foldl Intersection.step x

/-- The states a freshly constructed intersection can be brought to. -/
def Reachable (s : Intersection) : Prop :=
  ∃ (id : Int) (ops : List Op), s = (Intersection.init id).run ops

/-- One cycle on a fresh intersection (North turns GREEN), then an accident on
all four roads. -/
def greenThenBlocked : Intersection :=
  (Intersection.init 1).run
    [Op.simulate, Op.setAccident 0 true, Op.setAccident 1 true, Op.setAccident 2 true,
      Op.setAccident 3 true]

/-- The class invariants of an intersection: four roads, none with a negative
wait-time. -/
def WellFormed (x : Intersection) : Prop :=
  x.roads.length = 4 ∧ ∀ r ∈ x.roads, 0 ≤ r.waitTime

/-- At most one road of the list shows GREEN: any two GREEN roads sit at the
same index. -/
def AtMostOneGreen (roads : List Road) : Prop :=
  ∀ (i j : Nat) (ri rj : Road), roads[i]? = some ri → roads[j]? = some rj →
    ri.signal.state = SignalState.GREEN → rj.signal.state = SignalState.GREEN → i = j

/-- A reachable state with traffic: three vehicles and a pedestrian request
arrive, two cycles run, and an accident is reported in between. -/
def busyIntersection : Intersection :=
  (Intersection.init 3).run
    [Op.addVehicle 0 ⟨4, VehicleType.NORMAL⟩, Op.requestPedestrian 0,
      Op.addVehicle 2 ⟨5, VehicleType.EMERGENCY⟩, Op.simulate, Op.setAccident 1 true,
      Op.addVehicle 3 ⟨6, VehicleType.NORMAL⟩, Op.simulate]

/-- The end-to-end scenario: roads North, South, East, West without accidents or
pedestrian requests and with wait-time 0, South queueing one EMERGENCY vehicle,
the other roads empty; the signals left by earlier cycles are arbitrary. -/
def emergencyScenario (id vid : Int) (s0 s1 s2 s3 : SignalState) : Intersection :=
  { id := id,
    roads :=
      [ { name := "North", vehicles := [], accident := false, pedestrian := false,
          signal := ⟨s0⟩, waitTime := 0 },
        { name := "South", vehicles := [⟨vid, VehicleType.EMERGENCY⟩], accident := false,
          pedestrian := false, signal := ⟨s1⟩, waitTime := 0 },
        { name := "East", vehicles := [], accident := false, pedestrian := false,
          signal := ⟨s2⟩, waitTime := 0 },
        { name := "West", vehicles := [], accident := false, pedestrian := false,
          signal := ⟨s3⟩, waitTime := 0 } ] }

/-- A first road queueing 127 NORMAL vehicles and a later road queueing a single
EMERGENCY vehicle; no accidents, no pedestrian requests, equal wait-times. -/
def heavyThenEmergency : List Road :=
  [ { name := "North", vehicles := List.replicate 127 ⟨0, VehicleType.NORMAL⟩,
      accident := false, pedestrian := false, signal := TrafficLight.init, waitTime := 0 },
    { name := "South", vehicles := [⟨1, VehicleType.EMERGENCY⟩],
      accident := false, pedestrian := false, signal := TrafficLight.init, waitTime := 0 } ]

/-! ## Basic facts about the score -/

theorem score_eq (r : Road) :
    score r = ((r.vehicles.length : ℚ) * 4 + (r.waitTime : ℚ) * 3
      + (if r.hasEmergency then 500 else 0) + (if r.pedestrian then 50 else 0)) / 10 := by
  unfold score Road.density Road.getWaitTime Road.hasPedestrian
  split_ifs <;> norm_num <;> ring

theorem score_nonneg (r : Road) (h : 0 ≤ r.waitTime) : 0 ≤ score r := by
  rw [score_eq]
  have h1 : (0 : ℚ) ≤ (r.vehicles.length : ℚ) := Nat.cast_nonneg _
  have h2 : (0 : ℚ) ≤ (r.waitTime : ℚ) := by exact_mod_cast h
  split_ifs <;> positivity

/-! ## The selection loop -/

/-- What the loop returns from any intermediate state: either no remaining road
beats `bestScore` and `selected` is kept, or the first remaining road of maximal
score is selected. -/
theorem decideGreenLoop_spec (rs : List Road) : ∀ (i : Nat) (b : ℚ) (s : Option Nat),
    (decideGreenLoop rs i b s = s ∧ ∀ r ∈ rs, r.accident = false → score r ≤ b) ∨
    (∃ k w, rs[k]? = some w ∧ decideGreenLoop rs i b s = some (i + k) ∧
      w.accident = false ∧ b < score w ∧
      (∀ r ∈ rs, r.accident = false → score r ≤ score w) ∧
      (∀ j r, j < k → rs[j]? = some r → r.accident = false → score r < score w)) := by
  induction rs with
  | nil => intro i b s; left; simp [decideGreenLoop]
  | cons r rs ih =>
    intro i b s
    by_cases hacc : r.accident = true
    · have hstep : decideGreenLoop (r :: rs) i b s = decideGreenLoop rs (i + 1) b s := by
        simp [decideGreenLoop, Road.hasAccident, hacc]
      rcases ih (i + 1) b s with ⟨h1, h2⟩ | ⟨k, w, hk, hres, hw, hb, hmax, hfirst⟩
      · left
        refine ⟨by rw [hstep, h1], ?_⟩
        intro r' hr' ha
        rcases List.mem_cons.mp hr' with rfl | hr'
        · rw [hacc] at ha; cases ha
        · exact h2 r' hr' ha
      · right
        refine ⟨k + 1, w, by simpa using hk, by rw [hstep, hres]; congr 1; omega, hw, hb, ?_, ?_⟩
        · intro r' hr' ha
          rcases List.mem_cons.mp hr' with rfl | hr'
          · rw [hacc] at ha; cases ha
          · exact hmax r' hr' ha
        · intro j r' hj hjr ha
          cases j with
          | zero =>
            simp at hjr; subst hjr; rw [hacc] at ha; cases ha
          | succ j => exact hfirst j r' (by omega) (by simpa using hjr) ha
    · have hacc' : r.accident = false := by simpa using hacc
      by_cases hgt : score r > b
      · have hstep : decideGreenLoop (r :: rs) i b s
            = decideGreenLoop rs (i + 1) (score r) (some i) := by
          simp [decideGreenLoop, Road.hasAccident, hacc', hgt]
        rcases ih (i + 1) (score r) (some i) with ⟨h1, h2⟩ | ⟨k, w, hk, hres, hw, hb, hmax, hfirst⟩
        · right
          refine ⟨0, r, by simp, by rw [hstep, h1]; rfl, hacc', hgt, ?_, ?_⟩
          · intro r' hr' ha
            rcases List.mem_cons.mp hr' with rfl | hr'
            · exact le_refl _
            · exact h2 r' hr' ha
          · intro j r' hj; omega
        · right
          refine ⟨k + 1, w, by simpa using hk, by rw [hstep, hres]; congr 1; omega, hw,
            lt_trans hgt hb, ?_, ?_⟩
          · intro r' hr' ha
            rcases List.mem_cons.mp hr' with rfl | hr'
            · exact le_of_lt hb
            · exact hmax r' hr' ha
          · intro j r' hj hjr ha
            cases j with
            | zero => simp at hjr; subst hjr; exact hb
            | succ j => exact hfirst j r' (by omega) (by simpa using hjr) ha
      · have hle : score r ≤ b := not_lt.mp hgt
        have hstep : decideGreenLoop (r :: rs) i b s = decideGreenLoop rs (i + 1) b s := by
          simp [decideGreenLoop, Road.hasAccident, hacc', hgt]
        rcases ih (i + 1) b s with ⟨h1, h2⟩ | ⟨k, w, hk, hres, hw, hb, hmax, hfirst⟩
        · left
          refine ⟨by rw [hstep, h1], ?_⟩
          intro r' hr' ha
          rcases List.mem_cons.mp hr' with rfl | hr'
          · exact hle
          · exact h2 r' hr' ha
        · right
          refine ⟨k + 1, w, by simpa using hk, by rw [hstep, hres]; congr 1; omega, hw, hb, ?_, ?_⟩
          · intro r' hr' ha
            rcases List.mem_cons.mp hr' with rfl | hr'
            · exact le_of_lt (lt_of_le_of_lt hle hb)
            · exact hmax r' hr' ha
          · intro j r' hj hjr ha
            cases j with
            | zero => simp at hjr; subst hjr; exact lt_of_le_of_lt hle hb
            | succ j => exact hfirst j r' (by omega) (by simpa using hjr) ha

theorem decideGreen_cases (roads : List Road) :
    (decideGreen roads = none ∧ ∀ r ∈ roads, r.accident = false → score r ≤ -1) ∨
    (∃ k, decideGreen roads = some k ∧ Wins roads k) := by
  rcases decideGreenLoop_spec roads 0 (-1) none with ⟨h1, h2⟩ | ⟨k, w, hk, hres, hw, hb, hmax, hfirst⟩
  · left; exact ⟨h1, h2⟩
  · right
    refine ⟨k, ?_, w, hk, hw, hb, hmax, hfirst⟩
    simpa [decideGreen] using hres

theorem Wins.unique {roads : List Road} {k k' : Nat} (h : Wins roads k) (h' : Wins roads k') :
    k = k' := by
  obtain ⟨w, hk, hw, _, hmax, hfirst⟩ := h
  obtain ⟨w', hk', hw', _, hmax', hfirst'⟩ := h'
  rcases Nat.lt_trichotomy k k' with hlt | heq | hgt
  · have h1 := hfirst' k w hlt hk hw
    have h2 := hmax w' (List.getElem?_mem hk') hw'
    exact absurd h1 (not_lt.mpr h2)
  · exact heq
  · have h1 := hfirst k' w' hgt hk' hw'
    have h2 := hmax' w (List.getElem?_mem hk) hw
    exact absurd h1 (not_lt.mpr h2)

theorem decideGreen_eq_some_iff (roads : List Road) (k : Nat) :
    decideGreen roads = some k ↔ Wins roads k := by
  constructor
  · intro h
    rcases decideGreen_cases roads with ⟨h1, _⟩ | ⟨k', h1, h2⟩
    · rw [h1] at h; cases h
    · rw [h1] at h; cases h; exact h2
  · intro h
    rcases decideGreen_cases roads with ⟨_, h2⟩ | ⟨k', h1, h2⟩
    · obtain ⟨w, hk, hw, hb, _, _⟩ := h
      exact absurd hb (not_lt.mpr (h2 w (List.getElem?_mem hk) hw))
    · rw [h1, h.unique h2]

theorem decideGreen_eq_none_iff (roads : List Road) :
    decideGreen roads = none ↔ ∀ r ∈ roads, r.accident = false → score r ≤ -1 := by
  constructor
  · intro h
    rcases decideGreen_cases roads with ⟨_, h2⟩ | ⟨k, h1, _⟩
    · exact h2
    · rw [h1] at h; cases h
  · intro h
    rcases decideGreen_cases roads with ⟨h1, _⟩ | ⟨k, _, w, hk, hw, hb, _, _⟩
    · exact h1
    · exact absurd hb (not_lt.mpr (h w (List.getElem?_mem hk) hw))

/-! ## Sample inputs -/

theorem decideGreen_blockedThenOpen : decideGreen blockedThenOpen = some 1 := by
  simp [decideGreen, decideGreenLoop, blockedThenOpen, score, Road.hasAccident, Road.density,
    Road.getWaitTime, Road.hasEmergency, Road.hasPedestrian]

theorem blockedThenOpen_waitTime : ∀ r ∈ blockedThenOpen, 0 ≤ r.waitTime := by
  simp [blockedThenOpen]

/-! ## Selection: the contract of `decideGreen` -/

/-- C1: whenever `decideGreen` returns a road, that road is an element of the
input list and its accident flag is false, whatever the densities, wait-times,
emergency vehicles and pedestrian flags of the roads are. -/
theorem decideGreen_never_accident (roads : List Road) (k : Nat)
    (h : decideGreen roads = some k) :
    ∃ r, roads[k]? = some r ∧ r ∈ roads ∧ r.hasAccident = false := by
  obtain ⟨w, hk, hw, _⟩ := (decideGreen_eq_some_iff roads k).mp h
  exact ⟨w, hk, List.getElem?_mem hk, hw⟩

theorem decideGreen_never_accident_witness :
    decideGreen blockedThenOpen = some 1 ∧
    ∃ r, blockedThenOpen[1]? = some r ∧ r ∈ blockedThenOpen ∧ r.hasAccident = false :=
  ⟨decideGreen_blockedThenOpen,
    decideGreen_never_accident blockedThenOpen 1 decideGreen_blockedThenOpen⟩

theorem init_selects (id : Int) :
    decideGreen ((Intersection.init id).roads.map Road.incrementWait) = some 0 := by
  simp [decideGreen, decideGreenLoop, Intersection.init, Road.init, score, Road.hasAccident,
    Road.density, Road.getWaitTime, Road.hasEmergency, Road.hasPedestrian, Road.incrementWait]
  norm_num

theorem init_roads_waitTime (id : Int) : ∀ r ∈ (Intersection.init id).roads, 0 ≤ r.waitTime := by
  simp [Intersection.init, Road.init]

theorem wins_of_first_max {roads : List Road} (hwait : ∀ r ∈ roads, 0 ≤ r.waitTime)
    {i : Nat} {ri : Road} (hi : roads[i]? = some ri) (hacc : ri.accident = false)
    (hmax : ∀ r ∈ roads, r.accident = false → score r ≤ score ri)
    (hfirst : ∀ j r, j < i → roads[j]? = some r → r.accident = false → score r < score ri) :
    Wins roads i :=
  ⟨ri, hi, hacc,
    lt_of_lt_of_le (by norm_num) (score_nonneg ri (hwait ri (List.getElem?_mem hi))),
    hmax, hfirst⟩

/-- C4: on roads with non-negative wait-times (the empty list included),
`decideGreen` returns `none` exactly when every road has its accident flag set;
it is a total function whose result is `none` or an index into the list; and as
soon as one road has no accident it returns a road. -/
theorem decideGreen_none_iff_all_accident (roads : List Road)
    (hwait : ∀ r ∈ roads, 0 ≤ r.waitTime) :
    (decideGreen roads = none ↔ ∀ r ∈ roads, r.accident = true) ∧
    (decideGreen roads = none ∨ ∃ k, k < roads.length ∧ decideGreen roads = some k) ∧
    ((∃ r ∈ roads, r.accident = false) →
      ∃ k w, decideGreen roads = some k ∧ roads[k]? = some w) := by
  have hiff : decideGreen roads = none ↔ ∀ r ∈ roads, r.accident = true := by
    rw [decideGreen_eq_none_iff]
    constructor
    · intro h r hr
      by_contra hacc
      have hacc' : r.accident = false := by simpa using hacc
      have h1 := h r hr hacc'
      have h2 := score_nonneg r (hwait r hr)
      linarith
    · intro h r hr hacc
      rw [h r hr] at hacc
      cases hacc
  have hsome : ∀ k, decideGreen roads = some k → ∃ w, roads[k]? = some w := by
    intro k hk
    obtain ⟨w, hw, _⟩ := (decideGreen_eq_some_iff roads k).mp hk
    exact ⟨w, hw⟩
  refine ⟨hiff, ?_, ?_⟩
  · cases hres : decideGreen roads with
    | none => left; rfl
    | some k =>
      right
      obtain ⟨w, hw⟩ := hsome k hres
      exact ⟨k, (List.getElem?_eq_some.mp hw).1, rfl⟩
  · rintro ⟨r, hr, hacc⟩
    cases hres : decideGreen roads with
    | none =>
      have := hiff.mp hres r hr
      rw [hacc] at this
      cases this
    | some k =>
      obtain ⟨w, hw⟩ := hsome k hres
      exact ⟨k, w, rfl, hw⟩

theorem decideGreen_none_iff_all_accident_witness :
    (∀ r ∈ blockedThenOpen, 0 ≤ r.waitTime) ∧
    (decideGreen blockedThenOpen = none ↔ ∀ r ∈ blockedThenOpen, r.accident = true) :=
  ⟨blockedThenOpen_waitTime,
    (decideGreen_none_iff_all_accident blockedThenOpen blockedThenOpen_waitTime).1⟩

/-- C5: on roads with non-negative wait-times where exactly one road has no
accident, `decideGreen` returns that road, whatever its vehicles, wait-time and
pedestrian flag (so also when its score is 0). -/
theorem decideGreen_only_open_road (roads : List Road) (hwait : ∀ r ∈ roads, 0 ≤ r.waitTime)
    (k : Nat) (w : Road) (hk : roads[k]? = some w) (hopen : w.accident = false)
    (honly : ∀ j r, roads[j]? = some r → r.accident = false → j = k) :
    decideGreen roads = some k := by
  apply (decideGreen_eq_some_iff roads k).mpr
  apply wins_of_first_max hwait hk hopen
  · intro r hr hacc
    obtain ⟨j, hj⟩ := List.getElem?_of_mem hr
    have hjk := honly j r hj hacc
    subst hjk
    rw [hk] at hj
    cases hj
    exact le_refl _
  · intro j r hj hjr hacc
    have := honly j r hjr hacc
    omega

theorem decideGreen_only_open_road_witness :
    (∀ r ∈ blockedThenOpen, 0 ≤ r.waitTime) ∧
    (∃ w, blockedThenOpen[1]? = some w ∧ w.accident = false ∧ score w = 0) ∧
    decideGreen blockedThenOpen = some 1 :=
  ⟨blockedThenOpen_waitTime,
    ⟨_, rfl, rfl, by simp [blockedThenOpen, score, Road.density, Road.getWaitTime,
      Road.hasEmergency, Road.hasPedestrian]⟩,
    decideGreen_only_open_road blockedThenOpen blockedThenOpen_waitTime 1 _ rfl rfl (by
      intro j r hj hacc
      match j, hj with
      | 0, hj => simp [blockedThenOpen] at hj; subst hj; simp at hacc
      | 1, _ => rfl
      | j + 2, hj => simp [blockedThenOpen] at hj)⟩

/-! ## The cycle: `simulate` -/

theorem modifyAt_length (f : Road → Road) : ∀ (i : Nat) (rs : List Road),
    (modifyAt f i rs).length = rs.length
  | _, [] => by simp [modifyAt]
  | 0, _ :: _ => by simp [modifyAt]
  | i + 1, _ :: rs => by simp [modifyAt, modifyAt_length f i rs]

theorem getElem?_modifyAt (f : Road → Road) : ∀ (i : Nat) (rs : List Road) (j : Nat),
    (modifyAt f i rs)[j]? = if j = i then (rs[j]?).map f else rs[j]?
  | _, [], _ => by simp [modifyAt]
  | 0, _ :: _, 0 => by simp [modifyAt]
  | 0, _ :: _, j + 1 => by simp [modifyAt]
  | i + 1, _ :: _, 0 => by simp [modifyAt]
  | i + 1, _ :: rs, j + 1 => by simp [modifyAt, getElem?_modifyAt f i rs j]

theorem decideGreen_lt_length {roads : List Road} {g : Nat} (h : decideGreen roads = some g) :
    g < roads.length := by
  obtain ⟨w, hw, _⟩ := (decideGreen_eq_some_iff roads g).mp h
  exact (List.getElem?_eq_some.mp hw).1

theorem simulate_of_none (x : Intersection)
    (h : decideGreen (x.roads.map Road.incrementWait) = none) :
    x.simulate = ({ x with roads := x.roads.map Road.incrementWait }, none) := by
  simp [Intersection.simulate, h]

theorem simulate_roads_of_some (x : Intersection) (g : Nat)
    (h : decideGreen (x.roads.map Road.incrementWait) = some g) (j : Nat) :
    (x.simulate).1.roads[j]? = (x.roads[j]?).map (cycleRoad g j) := by
  have hg : g < x.roads.length := by simpa using decideGreen_lt_length h
  have hx : x.roads[g]? = some (x.roads[g]) := List.getElem?_eq_getElem hg
  simp only [Intersection.simulate, h, getElem?_modifyAt, List.getElem?_map, hx, if_true,
    Option.map_some']
  by_cases hj : j = g
  · subst hj
    simp [cycleRoad, hx]
  · simp only [hj, if_false]
    cases x.roads[j]? <;> simp [cycleRoad, hj]

theorem simulate_length (x : Intersection) :
    (x.simulate).1.roads.length = x.roads.length := by
  cases h : decideGreen (x.roads.map Road.incrementWait) with
  | none => simp [simulate_of_none x h]
  | some g =>
    have hg : g < x.roads.length := by simpa using decideGreen_lt_length h
    have hx : x.roads[g]? = some (x.roads[g]) := List.getElem?_eq_getElem hg
    simp [Intersection.simulate, h, getElem?_modifyAt, hx, modifyAt_length]

theorem simulate_output_of_some (x : Intersection) (g : Nat)
    (h : decideGreen (x.roads.map Road.incrementWait) = some g) :
    ∃ d, (x.simulate).2 = some d := by
  have hg : g < x.roads.length := by simpa using decideGreen_lt_length h
  have hx : x.roads[g]? = some (x.roads[g]) := List.getElem?_eq_getElem hg
  simp [Intersection.simulate, h, getElem?_modifyAt, hx]

theorem decideGreen_some_of_open {roads : List Road} (hwait : ∀ r ∈ roads, 0 ≤ r.waitTime)
    (hopen : ∃ r ∈ roads, r.accident = false) : ∃ g, decideGreen roads = some g := by
  obtain ⟨r, hr, hacc⟩ := hopen
  cases h : decideGreen roads with
  | some g => exact ⟨g, rfl⟩
  | none =>
    have h1 := (decideGreen_eq_none_iff roads).mp h r hr hacc
    have h2 := score_nonneg r (hwait r hr)
    linarith

theorem incrementWait_waitTime_nonneg {roads : List Road} (hwait : ∀ r ∈ roads, 0 ≤ r.waitTime) :
    ∀ r ∈ roads.map Road.incrementWait, 0 ≤ r.waitTime := by
  intro r hr
  obtain ⟨r0, hr0, rfl⟩ := List.mem_map.mp hr
  have := hwait r0 hr0
  simp only [Road.incrementWait]
  omega

theorem sampleIntersection_selects :
    decideGreen (sampleIntersection.roads.map Road.incrementWait) = some 1 := by
  simp [decideGreen, decideGreenLoop, sampleIntersection, score, Road.hasAccident, Road.density,
    Road.getWaitTime, Road.hasEmergency, Road.hasPedestrian, Vehicle.isEmergency,
    Road.incrementWait]
  norm_num

/-- C6: in a four-road intersection state (wait-times non-negative, as `Road`
keeps them) with at least one road without accident, `simulate` selects the road
`decideGreen` returns on the wait-incremented roads; afterwards there are still
four roads, exactly one of them is GREEN, namely the selected one, and every
other road is RED, whatever the signals were before. -/
theorem simulate_one_green (x : Intersection) (hfour : x.roads.length = 4)
    (hwait : ∀ r ∈ x.roads, 0 ≤ r.waitTime) (hopen : ∃ r ∈ x.roads, r.accident = false) :
    ∃ g, g < 4 ∧ decideGreen (x.roads.map Road.incrementWait) = some g ∧
      (x.simulate).1.roads.length = 4 ∧
      ((x.simulate).1.roads.filter (fun r => decide (r.signal.state = SignalState.GREEN))).length
        = 1 ∧
      (∃ w, (x.simulate).1.roads[g]? = some w ∧ w.signal.state = SignalState.GREEN) ∧
      (∀ j r, j ≠ g → (x.simulate).1.roads[j]? = some r → r.signal.state = SignalState.RED) := by
  have hopen' : ∃ r ∈ x.roads.map Road.incrementWait, r.accident = false := by
    obtain ⟨r, hr, hacc⟩ := hopen
    exact ⟨r.incrementWait, List.mem_map.mpr ⟨r, hr, rfl⟩, hacc⟩
  obtain ⟨g, hg⟩ := decideGreen_some_of_open (incrementWait_waitTime_nonneg hwait) hopen'
  have hlt : g < 4 := by
    have := decideGreen_lt_length hg
    simpa [hfour] using this
  have hlen : (x.simulate).1.roads.length = 4 := by rw [simulate_length, hfour]
  have hroad := simulate_roads_of_some x g hg
  have hgreen : ∀ j r, j = g → (x.simulate).1.roads[j]? = some r →
      r.signal.state = SignalState.GREEN := by
    intro j r hj hr
    rw [hroad j] at hr
    obtain ⟨r0, _, rfl⟩ := Option.map_eq_some'.mp hr
    simp [cycleRoad, hj, Road.resetCycle, Road.setSignal, TrafficLight.setState]
  have hred : ∀ j r, j ≠ g → (x.simulate).1.roads[j]? = some r →
      r.signal.state = SignalState.RED := by
    intro j r hj hr
    rw [hroad j] at hr
    obtain ⟨r0, _, rfl⟩ := Option.map_eq_some'.mp hr
    simp [cycleRoad, hj, Road.setSignal, TrafficLight.setState]
  refine ⟨g, hlt, hg, hlen, ?_, ?_, hred⟩
  · match hrs : (x.simulate).1.roads, hlen with
    | [a, b, c, d], _ =>
      rw [hrs] at hgreen hred
      have ha := fun h => hgreen 0 a h rfl
      have hb := fun h => hgreen 1 b h rfl
      have hc := fun h => hgreen 2 c h rfl
      have hd := fun h => hgreen 3 d h rfl
      have ha' := fun h => hred 0 a h rfl
      have hb' := fun h => hred 1 b h rfl
      have hc' := fun h => hred 2 c h rfl
      have hd' := fun h => hred 3 d h rfl
      interval_cases g
      · simp [ha rfl, hb' (by decide), hc' (by decide), hd' (by decide)]
      · simp [hb rfl, ha' (by decide), hc' (by decide), hd' (by decide)]
      · simp [hc rfl, ha' (by decide), hb' (by decide), hd' (by decide)]
      · simp [hd rfl, ha' (by decide), hb' (by decide), hc' (by decide)]
  · have hg' : g < (x.simulate).1.roads.length := by rw [hlen]; exact hlt
    exact ⟨_, List.getElem?_eq_getElem hg', hgreen g _ rfl (List.getElem?_eq_getElem hg')⟩

theorem simulate_one_green_witness :
    sampleIntersection.roads.length = 4 ∧
    (∀ r ∈ sampleIntersection.roads, 0 ≤ r.waitTime) ∧
    (∃ r ∈ sampleIntersection.roads, r.accident = false) ∧
    ∃ g, g < 4 ∧ decideGreen (sampleIntersection.roads.map Road.incrementWait) = some g ∧
      (sampleIntersection.simulate).1.roads.length = 4 ∧
      ((sampleIntersection.simulate).1.roads.filter
        (fun r => decide (r.signal.state = SignalState.GREEN))).length = 1 ∧
      (∃ w, (sampleIntersection.simulate).1.roads[g]? = some w ∧
        w.signal.state = SignalState.GREEN) ∧
      (∀ j r, j ≠ g → (sampleIntersection.simulate).1.roads[j]? = some r →
        r.signal.state = SignalState.RED) :=
  have h1 : sampleIntersection.roads.length = 4 := rfl
  have h2 : ∀ r ∈ sampleIntersection.roads, 0 ≤ r.waitTime := by simp [sampleIntersection]
  have h3 : ∃ r ∈ sampleIntersection.roads, r.accident = false := by simp [sampleIntersection]
  ⟨h1, h2, h3, simulate_one_green sampleIntersection h1 h2 h3⟩

/-- C7: when `simulate` selects the road at index `g`, afterwards that road has
density 0, pedestrian flag false and wait-time 0, and every other road's
wait-time is its wait-time before the cycle plus exactly 1. -/
theorem simulate_winner_reset (x : Intersection) (g : Nat)
    (hsel : decideGreen (x.roads.map Road.incrementWait) = some g) :
    (∃ w, (x.simulate).1.roads[g]? = some w ∧
      w.density = 0 ∧ w.pedestrian = false ∧ w.waitTime = 0) ∧
    (∀ j r, j ≠ g → x.roads[j]? = some r →
      ∃ r', (x.simulate).1.roads[j]? = some r' ∧ r'.waitTime = r.waitTime + 1) := by
  have hroad := simulate_roads_of_some x g hsel
  have hg : g < x.roads.length := by simpa using decideGreen_lt_length hsel
  constructor
  · refine ⟨cycleRoad g g x.roads[g], ?_, ?_⟩
    · rw [hroad g, List.getElem?_eq_getElem hg]; rfl
    · simp [cycleRoad, Road.resetCycle, Road.density]
  · intro j r hj hr
    refine ⟨cycleRoad g j r, ?_, ?_⟩
    · rw [hroad j, hr]; rfl
    · simp [cycleRoad, hj, Road.setSignal, Road.incrementWait]

theorem simulate_winner_reset_witness :
    decideGreen (sampleIntersection.roads.map Road.incrementWait) = some 1 ∧
    (∃ w, (sampleIntersection.simulate).1.roads[1]? = some w ∧
      w.density = 0 ∧ w.pedestrian = false ∧ w.waitTime = 0) ∧
    (∀ j r, j ≠ 1 → sampleIntersection.roads[j]? = some r →
      ∃ r', (sampleIntersection.simulate).1.roads[j]? = some r' ∧
        r'.waitTime = r.waitTime + 1) :=
  ⟨sampleIntersection_selects,
    simulate_winner_reset sampleIntersection 1 sampleIntersection_selects⟩

theorem cycleRoad_name (g j : Nat) (r : Road) : (cycleRoad g j r).name = r.name := by
  unfold cycleRoad; split_ifs <;> rfl

theorem cycleRoad_accident (g j : Nat) (r : Road) : (cycleRoad g j r).accident = r.accident := by
  unfold cycleRoad; split_ifs <;> rfl

/-- Every road after a cycle is the road at the same position before it, either
only wait-incremented (no selection) or changed by `cycleRoad`. -/
theorem simulate_roads_cases (x : Intersection) (j : Nat) (r' : Road)
    (h : (x.simulate).1.roads[j]? = some r') :
    ∃ r, x.roads[j]? = some r ∧
      ((decideGreen (x.roads.map Road.incrementWait) = none ∧ r' = r.incrementWait) ∨
       (∃ g, decideGreen (x.roads.map Road.incrementWait) = some g ∧ r' = cycleRoad g j r)) := by
  cases hsel : decideGreen (x.roads.map Road.incrementWait) with
  | none =>
    rw [simulate_of_none x hsel] at h
    simp only [List.getElem?_map] at h
    obtain ⟨r, hr, rfl⟩ := Option.map_eq_some'.mp h
    exact ⟨r, hr, Or.inl ⟨rfl, rfl⟩⟩
  | some g =>
    rw [simulate_roads_of_some x g hsel j] at h
    obtain ⟨r, hr, rfl⟩ := Option.map_eq_some'.mp h
    exact ⟨r, hr, Or.inr ⟨g, rfl, rfl⟩⟩

/-- C8 (frame of `simulate`), for every intersection state: the number of roads
is unchanged; at every position the road keeps its name and its accident flag
(so names keep their order), the winner included; and every road other than the
winner keeps its vehicle queue and its pedestrian flag. -/
theorem simulate_frame (x : Intersection) :
    (x.simulate).1.roads.length = x.roads.length ∧
    (x.simulate).1.roads.map Road.name = x.roads.map Road.name ∧
    (x.simulate).1.roads.map Road.accident = x.roads.map Road.accident ∧
    (∀ (j : Nat) (r : Road), x.roads[j]? = some r → decideGreen (x.roads.map Road.incrementWait) ≠ some j →
      ∃ r', (x.simulate).1.roads[j]? = some r' ∧
        r'.vehicles = r.vehicles ∧ r'.pedestrian = r.pedestrian ∧
        r'.name = r.name ∧ r'.accident = r.accident) := by
  have hlen := simulate_length x
  have hfield : ∀ j r', (x.simulate).1.roads[j]? = some r' →
      ∃ r, x.roads[j]? = some r ∧ r'.name = r.name ∧ r'.accident = r.accident ∧
        (decideGreen (x.roads.map Road.incrementWait) ≠ some j →
          r'.vehicles = r.vehicles ∧ r'.pedestrian = r.pedestrian) := by
    intro j r' h
    obtain ⟨r, hr, hcase⟩ := simulate_roads_cases x j r' h
    refine ⟨r, hr, ?_⟩
    rcases hcase with ⟨hsel, rfl⟩ | ⟨g, hsel, rfl⟩
    · exact ⟨rfl, rfl, fun _ => ⟨rfl, rfl⟩⟩
    · refine ⟨cycleRoad_name g j r, cycleRoad_accident g j r, ?_⟩
      intro hne
      have hj : j ≠ g := by
        intro hjg; apply hne; rw [hsel, hjg]
      simp [cycleRoad, hj, Road.setSignal, Road.incrementWait]
  refine ⟨hlen, ?_, ?_, ?_⟩
  · apply List.ext_getElem?
    intro j
    simp only [List.getElem?_map]
    cases h : (x.simulate).1.roads[j]? with
    | none =>
      have : x.roads[j]? = none := by
        rw [List.getElem?_eq_none_iff] at h ⊢
        omega
      simp [this]
    | some r' =>
      obtain ⟨r, hr, hn, _⟩ := hfield j r' h
      simp [hr, hn]
  · apply List.ext_getElem?
    intro j
    simp only [List.getElem?_map]
    cases h : (x.simulate).1.roads[j]? with
    | none =>
      have : x.roads[j]? = none := by
        rw [List.getElem?_eq_none_iff] at h ⊢
        omega
      simp [this]
    | some r' =>
      obtain ⟨r, hr, _, ha, _⟩ := hfield j r' h
      simp [hr, ha]
  · intro j r hr hne
    have hj : j < (x.simulate).1.roads.length := by
      rw [hlen]; exact (List.getElem?_eq_some.mp hr).1
    obtain ⟨r0, hr0, hn, ha, hv⟩ := hfield j _ (List.getElem?_eq_getElem hj)
    rw [hr] at hr0
    cases hr0
    exact ⟨_, List.getElem?_eq_getElem hj, (hv hne).1, (hv hne).2, hn, ha⟩

theorem simulate_frame_witness :
    (sampleIntersection.simulate).1.roads.length = sampleIntersection.roads.length ∧
    (sampleIntersection.simulate).1.roads.map Road.name = ["North", "South", "East", "West"] ∧
    (sampleIntersection.simulate).1.roads.map Road.accident = [false, false, true, false] :=
  have h := simulate_frame sampleIntersection
  ⟨h.1, h.2.1, h.2.2.1⟩

theorem decideGreen_none_of_all_accident {roads : List Road}
    (hall : ∀ r ∈ roads, r.accident = true) : decideGreen roads = none := by
  apply (decideGreen_eq_none_iff roads).mpr
  intro r hr hacc
  rw [hall r hr] at hacc
  cases hacc

/-- C9: when every road of the intersection has its accident flag set,
`simulate` selects no road and returns early: nothing is displayed, and the
state afterwards is the state before with every wait-time incremented by exactly
1, so that each road keeps its signal, vehicle queue, pedestrian flag, accident
flag and name. -/
theorem simulate_all_accident (x : Intersection) (hall : ∀ r ∈ x.roads, r.accident = true) :
    decideGreen (x.roads.map Road.incrementWait) = none ∧
    (x.simulate).2 = none ∧
    (x.simulate).1.id = x.id ∧
    (x.simulate).1.roads.length = x.roads.length ∧
    (∀ (j : Nat) (r : Road), x.roads[j]? = some r →
      ∃ r', (x.simulate).1.roads[j]? = some r' ∧
        r'.signal = r.signal ∧ r'.waitTime = r.waitTime + 1 ∧ r'.vehicles = r.vehicles ∧
        r'.pedestrian = r.pedestrian ∧ r'.accident = r.accident ∧ r'.name = r.name) := by
  have hsel : decideGreen (x.roads.map Road.incrementWait) = none := by
    apply decideGreen_none_of_all_accident
    intro r hr
    obtain ⟨r0, hr0, rfl⟩ := List.mem_map.mp hr
    exact hall r0 hr0
  have hsim := simulate_of_none x hsel
  refine ⟨hsel, by rw [hsim], by rw [hsim], by rw [hsim]; simp, ?_⟩
  intro j r hr
  refine ⟨r.incrementWait, ?_, rfl, rfl, rfl, rfl, rfl, rfl⟩
  rw [hsim]
  simp [hr]

theorem simulate_all_accident_witness :
    (∀ r ∈ allBlocked.roads, r.accident = true) ∧
    (allBlocked.simulate).2 = none ∧
    (allBlocked.simulate).1.roads.length = allBlocked.roads.length :=
  have hall : ∀ r ∈ allBlocked.roads, r.accident = true := by simp [allBlocked]
  have h := simulate_all_accident allBlocked hall
  ⟨hall, h.2.1, h.2.2.2.1⟩

/-! ## Reachable states -/

theorem greenThenBlocked_reachable : Reachable greenThenBlocked := ⟨1, _, rfl⟩

theorem init_simulate_roads (id : Int) :
    ((Intersection.init id).simulate).1.roads =
      [ { name := "North", vehicles := [], accident := false, pedestrian := false,
          signal := ⟨SignalState.GREEN⟩, waitTime := 0 },
        { name := "South", vehicles := [], accident := false, pedestrian := false,
          signal := ⟨SignalState.RED⟩, waitTime := 1 },
        { name := "East", vehicles := [], accident := false, pedestrian := false,
          signal := ⟨SignalState.RED⟩, waitTime := 1 },
        { name := "West", vehicles := [], accident := false, pedestrian := false,
          signal := ⟨SignalState.RED⟩, waitTime := 1 } ] := by
  simp only [Intersection.simulate, init_selects id]
  simp [Intersection.init, Road.init, Road.incrementWait, modifyAt, Road.setSignal,
    Road.resetCycle, TrafficLight.setState, TrafficLight.init]

theorem greenThenBlocked_roads :
    greenThenBlocked.roads =
      [ { name := "North", vehicles := [], accident := true, pedestrian := false,
          signal := ⟨SignalState.GREEN⟩, waitTime := 0 },
        { name := "South", vehicles := [], accident := true, pedestrian := false,
          signal := ⟨SignalState.RED⟩, waitTime := 1 },
        { name := "East", vehicles := [], accident := true, pedestrian := false,
          signal := ⟨SignalState.RED⟩, waitTime := 1 },
        { name := "West", vehicles := [], accident := true, pedestrian := false,
          signal := ⟨SignalState.RED⟩, waitTime := 1 } ] := by
  simp only [greenThenBlocked, Intersection.run, List.foldl, Intersection.step,
    init_simulate_roads 1]
  simp [modifyAt, Road.setAccident, show ((2 : Fin 4) : Nat) = 2 from rfl,
    show ((3 : Fin 4) : Nat) = 3 from rfl]

theorem greenThenBlocked_selects_none :
    decideGreen (greenThenBlocked.roads.map Road.incrementWait) = none := by
  rw [greenThenBlocked_roads]
  simp [decideGreen, decideGreenLoop, Road.hasAccident, Road.incrementWait]

/-- C10, as stated, fails: after a cycle that turned North GREEN and an accident
on all four roads, the next `simulate` selects no road and displays nothing, and
afterwards North is still GREEN, so not all four roads are RED. -/
theorem simulate_none_keeps_green :
    Reachable greenThenBlocked ∧
    decideGreen (greenThenBlocked.roads.map Road.incrementWait) = none ∧
    (greenThenBlocked.simulate).2 = none ∧
    (greenThenBlocked.simulate).1.roads.map (fun r => r.signal.state) =
      [SignalState.GREEN, SignalState.RED, SignalState.RED, SignalState.RED] ∧
    ¬ (∀ r ∈ (greenThenBlocked.simulate).1.roads, r.signal.state = SignalState.RED) := by
  have hsim := simulate_of_none greenThenBlocked greenThenBlocked_selects_none
  have hsig : (greenThenBlocked.simulate).1.roads.map (fun r => r.signal.state) =
      [SignalState.GREEN, SignalState.RED, SignalState.RED, SignalState.RED] := by
    rw [hsim]
    simp [greenThenBlocked_roads, Road.incrementWait]
  refine ⟨greenThenBlocked_reachable, greenThenBlocked_selects_none, by rw [hsim], hsig, ?_⟩
  intro hred
  have h1 : ∀ s ∈ (greenThenBlocked.simulate).1.roads.map (fun r => r.signal.state),
      s = SignalState.RED := by
    intro s hs
    obtain ⟨r, hr, rfl⟩ := List.mem_map.mp hs
    exact hred r hr
  rw [hsig] at h1
  exact absurd (h1 SignalState.GREEN (by simp)) (by decide)

theorem mem_modifyAt {f : Road → Road} : ∀ {i : Nat} {rs : List Road} {r' : Road},
    r' ∈ modifyAt f i rs → r' ∈ rs ∨ ∃ r ∈ rs, r' = f r
  | _, [], _, h => by simp [modifyAt] at h
  | 0, r :: rs, r', h => by
    simp only [modifyAt, List.mem_cons] at h
    rcases h with h | h
    · exact Or.inr ⟨r, List.mem_cons_self _ _, h⟩
    · exact Or.inl (List.mem_cons_of_mem _ h)
  | i + 1, r :: rs, r', h => by
    simp only [modifyAt, List.mem_cons] at h
    rcases h with h | h
    · exact Or.inl (h ▸ List.mem_cons_self _ _)
    · rcases mem_modifyAt h with h1 | ⟨r0, hr0, h1⟩
      · exact Or.inl (List.mem_cons_of_mem _ h1)
      · exact Or.inr ⟨r0, List.mem_cons_of_mem _ hr0, h1⟩

theorem WellFormed.init (id : Int) : WellFormed (Intersection.init id) :=
  ⟨rfl, init_roads_waitTime id⟩

theorem WellFormed.modifyAt {x : Intersection} (h : WellFormed x) (f : Road → Road) (i : Nat)
    (hf : ∀ r, (f r).waitTime = r.waitTime) :
    WellFormed { x with roads := modifyAt f i x.roads } := by
  refine ⟨by simpa [modifyAt_length] using h.1, ?_⟩
  intro r' hr'
  rcases mem_modifyAt hr' with h1 | ⟨r, hr, rfl⟩
  · exact h.2 r' h1
  · rw [hf]; exact h.2 r hr

theorem WellFormed.simulate {x : Intersection} (h : WellFormed x) :
    WellFormed (x.simulate).1 := by
  refine ⟨by rw [simulate_length]; exact h.1, ?_⟩
  intro r' hr'
  obtain ⟨j, hj⟩ := List.getElem?_of_mem hr'
  obtain ⟨r, hr, hcase⟩ := simulate_roads_cases x j r' hj
  have hw := h.2 r (List.getElem?_mem hr)
  rcases hcase with ⟨_, rfl⟩ | ⟨g, _, rfl⟩
  · simp only [Road.incrementWait]; omega
  · unfold cycleRoad
    split_ifs
    · simp [Road.resetCycle]
    · simp only [Road.setSignal, Road.incrementWait]; omega

theorem WellFormed.step {x : Intersection} (h : WellFormed x) (op : Op) :
    WellFormed (x.step op) := by
  cases op with
  | addVehicle i v => exact h.modifyAt _ _ (fun _ => rfl)
  | requestPedestrian i => exact h.modifyAt _ _ (fun _ => rfl)
  | setAccident i status => exact h.modifyAt _ _ (fun _ => rfl)
  | simulate => exact h.simulate

theorem WellFormed.run (ops : List Op) : ∀ {x : Intersection}, WellFormed x →
    WellFormed (x.run ops) := by
  induction ops with
  | nil => intro x h; exact h
  | cons op ops ih => intro x h; exact ih (h.step op)

theorem Reachable.wellFormed {s : Intersection} (h : Reachable s) : WellFormed s := by
  obtain ⟨id, ops, rfl⟩ := h
  exact WellFormed.run ops (WellFormed.init id)

/-- C10, amended: in every state reachable from a freshly constructed
intersection, if `simulate` selects no road then after that cycle each of the
four roads has the signal it had before the cycle; hence all four roads are RED
afterwards exactly when all four were RED before. -/
theorem simulate_none_keeps_signals (s : Intersection) (hreach : Reachable s)
    (hsel : decideGreen (s.roads.map Road.incrementWait) = none) :
    (s.simulate).1.roads.length = 4 ∧
    (s.simulate).1.roads.map Road.signal = s.roads.map Road.signal ∧
    ((∀ r ∈ (s.simulate).1.roads, r.signal.state = SignalState.RED) ↔
      (∀ r ∈ s.roads, r.signal.state = SignalState.RED)) := by
  have hsim := simulate_of_none s hsel
  have hsig : (s.simulate).1.roads.map Road.signal = s.roads.map Road.signal := by
    rw [hsim]
    simp [Road.incrementWait, Function.comp_def]
  refine ⟨hreach.wellFormed.simulate.1, hsig, ?_⟩
  have key : ∀ l : List Road, (∀ r ∈ l, r.signal.state = SignalState.RED) ↔
      (∀ t ∈ l.map Road.signal, t.state = SignalState.RED) := by
    intro l
    simp
  rw [key, key, hsig]

theorem simulate_none_keeps_signals_witness :
    Reachable greenThenBlocked ∧
    decideGreen (greenThenBlocked.roads.map Road.incrementWait) = none ∧
    (greenThenBlocked.simulate).1.roads.map Road.signal =
      greenThenBlocked.roads.map Road.signal :=
  ⟨greenThenBlocked_reachable, greenThenBlocked_selects_none,
    (simulate_none_keeps_signals greenThenBlocked greenThenBlocked_reachable
      greenThenBlocked_selects_none).2.1⟩

/-! ## Invariants of the reachable states -/

theorem Reachable.of_init (id : Int) : Reachable (Intersection.init id) := ⟨id, [], rfl⟩

theorem Reachable.of_step {s : Intersection} (h : Reachable s) (op : Op) : Reachable (s.step op) := by
  obtain ⟨id, ops, rfl⟩ := h
  exact ⟨id, ops ++ [op], by simp [Intersection.run]⟩

/-- A property that holds of every fresh intersection and is kept by every
operation holds in every reachable state. -/
theorem Reachable.invariant {P : Intersection → Prop} (hinit : ∀ id, P (Intersection.init id))
    (hstep : ∀ x op, P x → P (x.step op)) {s : Intersection} (h : Reachable s) : P s := by
  obtain ⟨id, ops, rfl⟩ := h
  have key : ∀ (l : List Op) (x : Intersection), P x → P (x.run l) := by
    intro l
    induction l with
    | nil => intro x hx; exact hx
    | cons op l ih => intro x hx; exact ih (x.step op) (hstep x op hx)
  exact key ops _ (hinit id)

theorem busyIntersection_reachable : Reachable busyIntersection := ⟨3, _, rfl⟩

theorem getElem?_modifyAt_signal {f : Road → Road} (hf : ∀ r, (f r).signal = r.signal)
    {i : Nat} {rs : List Road} {j : Nat} {r' : Road} (h : (modifyAt f i rs)[j]? = some r') :
    ∃ r, rs[j]? = some r ∧ r'.signal = r.signal := by
  rw [getElem?_modifyAt] at h
  split_ifs at h
  · obtain ⟨r, hr, rfl⟩ := Option.map_eq_some'.mp h
    exact ⟨r, hr, hf r⟩
  · exact ⟨r', h, rfl⟩

/-- The signal of a road after a cycle: unchanged when no road is selected,
otherwise GREEN exactly at the selected index and RED elsewhere. -/
theorem simulate_signal_cases (x : Intersection) (j : Nat) (r' : Road)
    (h : (x.simulate).1.roads[j]? = some r') :
    (decideGreen (x.roads.map Road.incrementWait) = none ∧
      ∃ r, x.roads[j]? = some r ∧ r'.signal = r.signal) ∨
    (∃ g, decideGreen (x.roads.map Road.incrementWait) = some g ∧
      ((j = g ∧ r'.signal.state = SignalState.GREEN) ∨
       (j ≠ g ∧ r'.signal.state = SignalState.RED))) := by
  obtain ⟨r, hr, hcase⟩ := simulate_roads_cases x j r' h
  rcases hcase with ⟨hsel, rfl⟩ | ⟨g, hsel, rfl⟩
  · exact Or.inl ⟨hsel, r, hr, rfl⟩
  · right
    refine ⟨g, hsel, ?_⟩
    by_cases hj : j = g
    · left; exact ⟨hj, by simp [cycleRoad, hj, Road.resetCycle, Road.setSignal,
        TrafficLight.setState]⟩
    · right; exact ⟨hj, by simp [cycleRoad, hj, Road.setSignal, TrafficLight.setState]⟩

/-- C11: in every state reachable from a freshly constructed intersection by
`addVehicle`, `requestPedestrian`, `setAccident` and `simulate` calls, the signal
of every road is RED or GREEN, never YELLOW, and `getState` never reports
"YELLOW". -/
theorem reachable_never_yellow (s : Intersection) (hreach : Reachable s) :
    ∀ r ∈ s.roads,
      (r.signal.state = SignalState.RED ∨ r.signal.state = SignalState.GREEN) ∧
      r.signal.state ≠ SignalState.YELLOW ∧ r.signal.getState ≠ "YELLOW" := by
  have hinv : ∀ r ∈ s.roads,
      r.signal.state = SignalState.RED ∨ r.signal.state = SignalState.GREEN := by
    refine Reachable.invariant
      (P := fun x => ∀ r ∈ x.roads,
        r.signal.state = SignalState.RED ∨ r.signal.state = SignalState.GREEN) ?_ ?_ hreach
    · intro id r hr
      left
      simp only [Intersection.init, List.mem_cons, List.mem_singleton, List.not_mem_nil,
        or_false] at hr
      rcases hr with rfl | rfl | rfl | rfl <;> rfl
    · intro x op hx r' hr'
      have hmod : ∀ (f : Road → Road) (i : Nat), (∀ r, (f r).signal = r.signal) →
          r' ∈ modifyAt f i x.roads →
          r'.signal.state = SignalState.RED ∨ r'.signal.state = SignalState.GREEN := by
        intro f i hf hmem
        rcases mem_modifyAt hmem with h1 | ⟨r, hr, rfl⟩
        · exact hx r' h1
        · rw [hf]; exact hx r hr
      cases op with
      | addVehicle i v => exact hmod (fun r => r.addVehicle v) i.val (fun _ => rfl) hr'
      | requestPedestrian i => exact hmod Road.requestPedestrian i.val (fun _ => rfl) hr'
      | setAccident i status =>
        exact hmod (fun r => r.setAccident status) i.val (fun _ => rfl) hr'
      | simulate =>
        obtain ⟨j, hj⟩ := List.getElem?_of_mem hr'
        rcases simulate_signal_cases x j r' hj with ⟨_, r, hr, hsig⟩ | ⟨g, _, h2⟩
        · rw [hsig]; exact hx r (List.getElem?_mem hr)
        · rcases h2 with ⟨_, h3⟩ | ⟨_, h3⟩
          · exact Or.inr h3
          · exact Or.inl h3
  intro r hr
  refine ⟨hinv r hr, ?_, ?_⟩
  · rcases hinv r hr with h | h <;> rw [h] <;> decide
  · rcases hinv r hr with h | h <;> simp [TrafficLight.getState, h]

theorem reachable_never_yellow_witness :
    Reachable busyIntersection ∧
    ∀ r ∈ busyIntersection.roads,
      (r.signal.state = SignalState.RED ∨ r.signal.state = SignalState.GREEN) ∧
      r.signal.state ≠ SignalState.YELLOW ∧ r.signal.getState ≠ "YELLOW" :=
  ⟨busyIntersection_reachable, reachable_never_yellow busyIntersection busyIntersection_reachable⟩

/-! ## Green time and the emergency query -/

/-- C12: `calculateGreenTime r = 20 + 2 × density + (30 if the road has an
emergency vehicle, else 0)`; for a fixed emergency status it is monotonically
non-decreasing in the density, and for a fixed density the value with an
emergency vehicle exceeds the value without one by exactly 30. -/
theorem calculateGreenTime_formula :
    (∀ r : Road, calculateGreenTime r =
      20 + 2 * r.density + (if r.hasEmergency = true then 30 else 0)) ∧
    (∀ r : Road, r.hasEmergency = true ↔ ∃ v ∈ r.vehicles, v.type = VehicleType.EMERGENCY) ∧
    (∀ r1 r2 : Road, r1.hasEmergency = r2.hasEmergency → r1.density ≤ r2.density →
      calculateGreenTime r1 ≤ calculateGreenTime r2) ∧
    (∀ r1 r2 : Road, r1.density = r2.density → r1.hasEmergency = false →
      r2.hasEmergency = true → calculateGreenTime r2 = calculateGreenTime r1 + 30) := by
  refine ⟨?_, ?_, ?_, ?_⟩
  · intro r
    simp only [calculateGreenTime]
    ring
  · intro r
    simp [Road.hasEmergency, Vehicle.isEmergency]
  · intro r1 r2 he hd
    simp only [calculateGreenTime, he]
    omega
  · intro r1 r2 hd h1 h2
    simp only [calculateGreenTime, hd, h1, h2]
    simp

theorem calculateGreenTime_formula_witness :
    calculateGreenTime
      { name := "South", vehicles := [⟨1, VehicleType.EMERGENCY⟩], accident := false,
        pedestrian := false, signal := TrafficLight.init, waitTime := 0 } = 52 :=
  (calculateGreenTime_formula.1 _).trans (by decide)

theorem Intersection.hasEmergency_eq_any (x : Intersection) :
    x.hasEmergency = (x.roads.map Road.vehicles).any (fun vs => vs.any Vehicle.isEmergency) := by
  unfold Intersection.hasEmergency
  induction x.roads with
  | nil => rfl
  | cons r rs ih => simp only [List.any_cons, List.map_cons, ih, Road.hasEmergency]

/-- C15: `Intersection::hasEmergency` returns true exactly when some road of the
intersection queues at least one vehicle of type EMERGENCY; it depends on the
vehicle queues only, so intersections with the same queues give the same answer
whatever their accident flags, pedestrian flags, wait-times and signals are. -/
theorem hasEmergency_iff (x : Intersection) :
    (x.hasEmergency = true ↔
      ∃ r ∈ x.roads, ∃ v ∈ r.vehicles, v.type = VehicleType.EMERGENCY) ∧
    (∀ y : Intersection, y.roads.map Road.vehicles = x.roads.map Road.vehicles →
      y.hasEmergency = x.hasEmergency) := by
  constructor
  · simp [Intersection.hasEmergency, Road.hasEmergency, Vehicle.isEmergency]
  · intro y hy
    rw [Intersection.hasEmergency_eq_any, Intersection.hasEmergency_eq_any, hy]

theorem hasEmergency_iff_witness :
    sampleIntersection.hasEmergency = true ∧ allBlocked.hasEmergency = true ∧
    (Intersection.init 1).hasEmergency = false := by
  refine ⟨?_, ?_, ?_⟩
  · exact (hasEmergency_iff sampleIntersection).1.mpr
      ⟨_, List.mem_cons_of_mem _ (List.mem_cons_self _ _), _, List.mem_cons_self _ _, rfl⟩
  · exact (hasEmergency_iff allBlocked).1.mpr
      ⟨_, List.mem_cons_self _ _, _, List.mem_cons_self _ _, rfl⟩
  · decide

theorem calculateGreenTime_congr {r r' : Road} (h : r'.vehicles = r.vehicles) :
    calculateGreenTime r' = calculateGreenTime r := by
  simp [calculateGreenTime, Road.density, Road.hasEmergency, h]

/-- The output of a cycle that selects the road at index `g`: its name and the
green time of the road as it was when the cycle started. -/
theorem simulate_output_eq (x : Intersection) (g : Nat) (r : Road)
    (hsel : decideGreen (x.roads.map Road.incrementWait) = some g) (hr : x.roads[g]? = some r) :
    ∃ d, (x.simulate).2 = some d ∧ d.greenRoad = r.name ∧ d.time = calculateGreenTime r := by
  have h3 : (modifyAt (fun r => r.setSignal SignalState.GREEN) g
      ((x.roads.map Road.incrementWait).map (fun r => r.setSignal SignalState.RED)))[g]?
      = some ((r.incrementWait.setSignal SignalState.RED).setSignal SignalState.GREEN) := by
    simp [getElem?_modifyAt, hr]
  simp only [Intersection.simulate, hsel, h3]
  exact ⟨_, rfl, rfl, calculateGreenTime_congr rfl⟩

/-- C16: when `simulate` selects the road at index `g`, the green duration it
computes and displays is `20 + 2 × d + (30 if e else 0)` where `d` and `e` are
the density and emergency status of that road before the cycle started, not the
values after `resetCycle` (for which the formula gives 20). -/
theorem simulate_green_time (x : Intersection) (g : Nat) (r : Road)
    (hsel : decideGreen (x.roads.map Road.incrementWait) = some g) (hr : x.roads[g]? = some r) :
    (∃ d, (x.simulate).2 = some d ∧ d.greenRoad = r.name ∧
      d.time = 20 + 2 * r.density + (if r.hasEmergency = true then 30 else 0)) ∧
    (∃ w, (x.simulate).1.roads[g]? = some w ∧ calculateGreenTime w = 20) := by
  constructor
  · obtain ⟨d, hd, hname, htime⟩ := simulate_output_eq x g r hsel hr
    refine ⟨d, hd, hname, ?_⟩
    rw [htime]
    simp only [calculateGreenTime]
    ring
  · refine ⟨cycleRoad g g r, ?_, ?_⟩
    · rw [simulate_roads_of_some x g hsel g, hr]; rfl
    · simp [cycleRoad, calculateGreenTime, Road.resetCycle, Road.density, Road.hasEmergency]

theorem simulate_green_time_witness :
    decideGreen (sampleIntersection.roads.map Road.incrementWait) = some 1 ∧
    ∃ d, (sampleIntersection.simulate).2 = some d ∧ d.greenRoad = "South" ∧ d.time = 52 :=
  ⟨sampleIntersection_selects,
    (simulate_green_time sampleIntersection 1 _ sampleIntersection_selects rfl).1⟩

/-! ## Mutual exclusion of green signals -/

theorem AtMostOneGreen.tail {r : Road} {rs : List Road} (h : AtMostOneGreen (r :: rs)) :
    AtMostOneGreen rs := by
  intro i j ri rj hi hj hgi hgj
  have := h (i + 1) (j + 1) ri rj (by simpa using hi) (by simpa using hj) hgi hgj
  omega

theorem AtMostOneGreen.filter_length : ∀ {l : List Road}, AtMostOneGreen l →
    (l.filter (fun r => decide (r.signal.state = SignalState.GREEN))).length ≤ 1
  | [], _ => by simp
  | r :: rs, h => by
    by_cases hg : r.signal.state = SignalState.GREEN
    · have hnone : rs.filter (fun r => decide (r.signal.state = SignalState.GREEN)) = [] := by
        rw [List.filter_eq_nil_iff]
        intro r' hr' hgreen
        obtain ⟨j, hj⟩ := List.getElem?_of_mem hr'
        have := h 0 (j + 1) r r' (by simp) (by simpa using hj) hg (by simpa using hgreen)
        omega
      simp [List.filter_cons, hg, hnone]
    · have := AtMostOneGreen.filter_length h.tail
      simpa [List.filter_cons, hg] using this

theorem AtMostOneGreen.keep_modifyAt {rs : List Road} (h : AtMostOneGreen rs) (f : Road → Road)
    (k : Nat) (hf : ∀ r, (f r).signal = r.signal) : AtMostOneGreen (modifyAt f k rs) := by
  intro i j ri rj hi hj hgi hgj
  obtain ⟨ri0, hi0, hsi⟩ := getElem?_modifyAt_signal hf hi
  obtain ⟨rj0, hj0, hsj⟩ := getElem?_modifyAt_signal hf hj
  exact h i j ri0 rj0 hi0 hj0 (by rw [← hsi]; exact hgi) (by rw [← hsj]; exact hgj)

theorem AtMostOneGreen.keep_simulate {x : Intersection} (h : AtMostOneGreen x.roads) :
    AtMostOneGreen (x.simulate).1.roads := by
  intro i j ri rj hi hj hgi hgj
  rcases simulate_signal_cases x i ri hi with ⟨hn, ri0, hi0, hsi⟩ | ⟨g, hg, hci⟩
  · rcases simulate_signal_cases x j rj hj with ⟨_, rj0, hj0, hsj⟩ | ⟨g', hg', _⟩
    · exact h i j ri0 rj0 hi0 hj0 (by rw [← hsi]; exact hgi) (by rw [← hsj]; exact hgj)
    · rw [hn] at hg'; cases hg'
  · rcases simulate_signal_cases x j rj hj with ⟨hn, _⟩ | ⟨g', hg', hcj⟩
    · rw [hn] at hg; cases hg
    · rw [hg] at hg'
      cases hg'
      rcases hci with ⟨hig, _⟩ | ⟨_, hred⟩
      · rcases hcj with ⟨hjg, _⟩ | ⟨_, hred⟩
        · rw [hig, hjg]
        · rw [hred] at hgj; cases hgj
      · rw [hred] at hgi; cases hgi

/-- C17: in every state reachable from a freshly constructed intersection by
`addVehicle`, `requestPedestrian`, `setAccident` and `simulate` calls, at most
one of the four roads has signal GREEN. -/
theorem reachable_at_most_one_green (s : Intersection) (hreach : Reachable s) :
    s.roads.length = 4 ∧
    (s.roads.filter (fun r => decide (r.signal.state = SignalState.GREEN))).length ≤ 1 ∧
    (∀ (i j : Nat) (ri rj : Road), s.roads[i]? = some ri → s.roads[j]? = some rj →
      ri.signal.state = SignalState.GREEN → rj.signal.state = SignalState.GREEN → i = j) := by
  have hinv : AtMostOneGreen s.roads := by
    refine Reachable.invariant (P := fun x => AtMostOneGreen x.roads) ?_ ?_ hreach
    · intro id i j ri rj hi _ hgi _
      have hmem := List.getElem?_mem hi
      simp only [Intersection.init, List.mem_cons, List.mem_singleton, List.not_mem_nil,
        or_false] at hmem
      rcases hmem with rfl | rfl | rfl | rfl <;> cases hgi
    · intro x op hx
      cases op with
      | addVehicle i v => exact hx.keep_modifyAt (fun r => r.addVehicle v) i.val (fun _ => rfl)
      | requestPedestrian i => exact hx.keep_modifyAt Road.requestPedestrian i.val (fun _ => rfl)
      | setAccident i status =>
        exact hx.keep_modifyAt (fun r => r.setAccident status) i.val (fun _ => rfl)
      | simulate => exact hx.keep_simulate
  exact ⟨hreach.wellFormed.1, hinv.filter_length, hinv⟩

theorem reachable_at_most_one_green_witness :
    Reachable busyIntersection ∧
    (busyIntersection.roads.filter
      (fun r => decide (r.signal.state = SignalState.GREEN))).length ≤ 1 :=
  ⟨busyIntersection_reachable,
    (reachable_at_most_one_green busyIntersection busyIntersection_reachable).2.1⟩

/-! ## Relational properties of the selection -/

theorem emergencyScenario_selects (id vid : Int) (s0 s1 s2 s3 : SignalState) :
    decideGreen ((emergencyScenario id vid s0 s1 s2 s3).roads.map Road.incrementWait)
      = some 1 := by
  simp [decideGreen, decideGreenLoop, emergencyScenario, score, Road.hasAccident, Road.density,
    Road.getWaitTime, Road.hasEmergency, Road.hasPedestrian, Vehicle.isEmergency,
    Road.incrementWait]
  norm_num

/-- C13: in the end-to-end scenario (South queues one EMERGENCY vehicle, nothing
else on the intersection, all wait-times 0) `simulate` selects South and displays
a green time of 52 seconds; afterwards South is GREEN with density 0 and
wait-time 0, and North, East and West are RED with density 0, no pedestrian
flag and wait-time 1. The scenario is the state of the first intersection after
`populateTraffic`. -/
theorem simulate_emergencyScenario (id vid : Int) (s0 s1 s2 s3 : SignalState) :
    decideGreen ((emergencyScenario id vid s0 s1 s2 s3).roads.map Road.incrementWait)
      = some 1 ∧
    ((emergencyScenario id vid s0 s1 s2 s3).simulate).2.map (fun d => (d.greenRoad, d.time))
      = some ("South", 52) ∧
    ((emergencyScenario id vid s0 s1 s2 s3).simulate).1.roads =
      [ { name := "North", vehicles := [], accident := false, pedestrian := false,
          signal := ⟨SignalState.RED⟩, waitTime := 1 },
        { name := "South", vehicles := [], accident := false, pedestrian := false,
          signal := ⟨SignalState.GREEN⟩, waitTime := 0 },
        { name := "East", vehicles := [], accident := false, pedestrian := false,
          signal := ⟨SignalState.RED⟩, waitTime := 1 },
        { name := "West", vehicles := [], accident := false, pedestrian := false,
          signal := ⟨SignalState.RED⟩, waitTime := 1 } ] ∧
    ((emergencyScenario id vid s0 s1 s2 s3).simulate).1.roads.map Road.density = [0, 0, 0, 0] ∧
    (Intersection.init 1).step (Op.addVehicle 1 ⟨1, VehicleType.EMERGENCY⟩)
      = emergencyScenario 1 1 SignalState.RED SignalState.RED SignalState.RED SignalState.RED := by
  have hsel := emergencyScenario_selects id vid s0 s1 s2 s3
  have hroads : ((emergencyScenario id vid s0 s1 s2 s3).simulate).1.roads =
      [ { name := "North", vehicles := [], accident := false, pedestrian := false,
          signal := ⟨SignalState.RED⟩, waitTime := 1 },
        { name := "South", vehicles := [], accident := false, pedestrian := false,
          signal := ⟨SignalState.GREEN⟩, waitTime := 0 },
        { name := "East", vehicles := [], accident := false, pedestrian := false,
          signal := ⟨SignalState.RED⟩, waitTime := 1 },
        { name := "West", vehicles := [], accident := false, pedestrian := false,
          signal := ⟨SignalState.RED⟩, waitTime := 1 } ] := by
    simp only [Intersection.simulate, hsel]
    simp [emergencyScenario, Road.incrementWait, modifyAt, Road.setSignal, Road.resetCycle,
      TrafficLight.setState]
  refine ⟨hsel, ?_, hroads, ?_, ?_⟩
  · obtain ⟨d, hd, hname, htime⟩ := simulate_output_eq (emergencyScenario id vid s0 s1 s2 s3) 1
      _ hsel rfl
    rw [hd]
    simp only [Option.map_some', hname, htime]
    rfl
  · rw [hroads]; rfl
  · simp [Intersection.step, Intersection.init, Road.init, emergencyScenario, modifyAt,
      Road.addVehicle, TrafficLight.init]

/-- C14, as stated, fails: in the end-to-end scenario `simulate` calls
`decideGreen` on the roads after the wait increment, where the score of South is
50.7 and the score of North, East and West is 0.3, not 50.4 and 0. -/
theorem emergencyScenario_scores_not_as_stated :
    ((emergencyScenario 1 1 SignalState.RED SignalState.RED SignalState.RED
      SignalState.RED).roads.map Road.incrementWait).map score = [0.3, 50.7, 0.3, 0.3] ∧
    ((emergencyScenario 1 1 SignalState.RED SignalState.RED SignalState.RED
      SignalState.RED).roads.map Road.incrementWait).map score ≠ [0, 50.4, 0, 0] := by
  have h : ((emergencyScenario 1 1 SignalState.RED SignalState.RED SignalState.RED
      SignalState.RED).roads.map Road.incrementWait).map score = [0.3, 50.7, 0.3, 0.3] := by
    simp [emergencyScenario, score, Road.density, Road.getWaitTime, Road.hasEmergency,
      Road.hasPedestrian, Vehicle.isEmergency, Road.incrementWait]
    norm_num
  refine ⟨h, ?_⟩
  rw [h]
  norm_num

/-- C14, amended: in the end-to-end scenario the scores that the selection step of
`simulate` computes, on the roads after the wait increment (wait-time 1 each),
are 50.7 for South and 0.3 for each of North, East and West; 50.4 and 0 are the
scores of the roads as they stand before the cycle. South is selected either
way. -/
theorem emergencyScenario_scores (id vid : Int) (s0 s1 s2 s3 : SignalState) :
    ((emergencyScenario id vid s0 s1 s2 s3).roads.map Road.incrementWait).map score
      = [0.3, 50.7, 0.3, 0.3] ∧
    (emergencyScenario id vid s0 s1 s2 s3).roads.map score = [0, 50.4, 0, 0] ∧
    decideGreen ((emergencyScenario id vid s0 s1 s2 s3).roads.map Road.incrementWait)
      = some 1 ∧
    decideGreen (emergencyScenario id vid s0 s1 s2 s3).roads = some 1 := by
  refine ⟨?_, ?_, emergencyScenario_selects id vid s0 s1 s2 s3, ?_⟩
  · simp [emergencyScenario, score, Road.density, Road.getWaitTime, Road.hasEmergency,
      Road.hasPedestrian, Vehicle.isEmergency, Road.incrementWait]
    norm_num
  · simp [emergencyScenario, score, Road.density, Road.getWaitTime, Road.hasEmergency,
      Road.hasPedestrian, Vehicle.isEmergency]
    norm_num
  · simp [decideGreen, decideGreenLoop, emergencyScenario, score, Road.hasAccident,
      Road.density, Road.getWaitTime, Road.hasEmergency, Road.hasPedestrian,
      Vehicle.isEmergency]
    norm_num

/-- C20: the emergency bonus does not guarantee priority. With a first road
queueing 127 NORMAL vehicles (score 50.8) and a later road queueing a single
EMERGENCY vehicle (score 50.4), no accidents, no pedestrian requests and equal
wait-times, `decideGreen` selects the first road, which has no EMERGENCY
vehicle. -/
theorem emergency_bonus_no_priority :
    (∀ r ∈ heavyThenEmergency, r.accident = false ∧ r.pedestrian = false ∧ r.waitTime = 0) ∧
    decideGreen heavyThenEmergency = some 0 ∧
    (∃ w, heavyThenEmergency[0]? = some w ∧ w.hasEmergency = false ∧ w.density = 127 ∧
      score w = 50.8) ∧
    (∃ r, heavyThenEmergency[1]? = some r ∧ r.hasEmergency = true ∧ r.density = 1 ∧
      score r = 50.4) := by
  refine ⟨by simp [heavyThenEmergency], ?_, ⟨_, rfl, ?_, ?_, ?_⟩, ⟨_, rfl, ?_, ?_, ?_⟩⟩
  · simp [decideGreen, decideGreenLoop, heavyThenEmergency, score, Road.hasAccident,
      Road.density, Road.getWaitTime, Road.hasEmergency, Road.hasPedestrian,
      Vehicle.isEmergency]
    norm_num
  · simp [heavyThenEmergency, Road.hasEmergency, Vehicle.isEmergency]
  · simp [heavyThenEmergency, Road.density]
  · simp [heavyThenEmergency, score, Road.density, Road.getWaitTime, Road.hasEmergency,
      Road.hasPedestrian, Vehicle.isEmergency]
    norm_num
  · simp [heavyThenEmergency, Road.hasEmergency, Vehicle.isEmergency]
  · simp [heavyThenEmergency, Road.density]
  · simp [heavyThenEmergency, score, Road.density, Road.getWaitTime, Road.hasEmergency,
      Road.hasPedestrian, Vehicle.isEmergency]
    norm_num

end SmartTraffic
